import Mathlib

/-!
Verification of the MetamaskService class of the web3-metamask repository.
The final, most complete revision of the service (the file called part_001
here) is the authority; the two other files are earlier revisions of the
same class.  Numbers are modelled by exact rationals: BigNumber decimal
operations are exact rational operations except for the documented
20-decimal-place rounding of division, and the points where a value is
forced through a native binary64 number (the unary plus of totalSupply,
Math.pow, and the Number-to-String conversion inside the BigNumber
constructor) are modelled by explicit binary64 rounding and
shortest-representation reprinting.  Provider interactions are modelled by
an explicit environment recording the results the provider returns, and
every operation also yields the ordered trace of provider calls it issued.
-/

namespace Web3Metamask

attribute [local semireducible] Rat.mul Rat.add Rat.sub Rat.inv

/-- A member of the ABI list: a descriptor, treated as a black box, with
at least a name field.  The payload field stands for the remainder of the
descriptor and lets two entries with the same name be told apart. -/
structure MethodDescriptor where
  name : String
  payload : String
deriving DecidableEq

/-- Error values arising from the wrapped ABI codec, from contract read
calls, or from the wallet RPC. -/
inductive JsError where
  | methodNotFound
  | encodingError
  | callFailed
  | sendFailed
deriving DecidableEq

/-- A JavaScript value that the descriptor lookup can produce: a method
descriptor, or the undefined value that indexing past the end of an array
yields. -/
inductive JsValue where
  | undefined
  | method (m : MethodDescriptor)
deriving DecidableEq

/-- The value of the expression abi.filter(m => m.name === methodName)[0]:
the head of the filtered list, or the undefined value when the filter
result is empty, since indexing past the end of a JavaScript array yields
undefined. -/
def methodLookup (abi : List MethodDescriptor) (methodName : String) : JsValue :=
  match (abi.filter (fun m => m.name == methodName)).head? with
  | some m => JsValue.method m
  | none => JsValue.undefined

/-- Embedding of getMethodInterface (part_001 lines 114-118).  Array
filtering and indexing never throw in JavaScript, so the call always
completes normally with a value; the Except result type records that no
error is ever raised by this method. -/
def getMethodInterface (abi : List MethodDescriptor) (methodName : String) :
    Except JsError JsValue :=
  Except.ok (methodLookup abi methodName)

/-- The floor of a rational, computed directly on its numerator and
denominator so that it evaluates by kernel reduction. -/
def floorQ (x : ℚ) : ℤ := Int.fdiv x.num (x.den : ℤ)

/-- Rounding to the nearest integer with ties away from zero: the
ROUND_HALF_UP mode (mode 4) that bignumber.js applies by default. -/
def roundHalfUp (x : ℚ) : ℤ :=
  if 0 ≤ x then floorQ (x + 1 / 2) else -floorQ (-x + 1 / 2)

/-- Rounding to the nearest integer with ties to the even neighbour, the
IEEE 754 round-to-nearest rule applied when a value is forced into the
binary64 format. -/
def roundHalfEven (x : ℚ) : ℤ :=
  if x - (floorQ x : ℚ) = 1 / 2 then
    (if floorQ x % 2 = 0 then floorQ x else floorQ x + 1)
  else roundHalfUp x

/-- Rounding of x to dp decimal places with ties away from zero:
bignumber.js computes the quotient of dividedBy to DECIMAL_PLACES
(default 20) decimal places under the default rounding mode. -/
def roundDp (dp : ℕ) (x : ℚ) : ℚ := (roundHalfUp (x * 10 ^ dp) : ℚ) / 10 ^ dp

/-- Fuelled downward scan for the binary exponent: halves a until it
drops below 2, counting the halvings. -/
def exp2Down (fuel : ℕ) (a : ℚ) (e : ℤ) : ℤ :=
  match fuel with
  | 0 => e
  | fuel + 1 => if 2 ≤ a then exp2Down fuel (a / 2) (e + 1) else e

/-- Fuelled upward scan for the binary exponent: doubles a until it
reaches 1, counting the doublings. -/
def exp2Up (fuel : ℕ) (a : ℚ) (e : ℤ) : ℤ :=
  match fuel with
  | 0 => e
  | fuel + 1 => if a < 1 then exp2Up fuel (a * 2) (e - 1) else e

/-- The binary exponent of a nonzero rational: the e with 2 to the e at
most the absolute value, which stays below 2 to the e plus one.  The
fuel covers the whole binary64 exponent range with a wide margin. -/
def log2Rat (q : ℚ) : ℤ :=
  if 1 ≤ |q| then exp2Down 1100 |q| 0 else exp2Up 1100 |q| 0

/-- The value of the IEEE 754 binary64 number nearest to q (round to
nearest, ties to even) in the normal range, which every amount handled
here stays within: q is scaled into the 53-bit significand range,
rounded to an integer, and scaled back.  The unary + of totalSupply
(part_001 line 131) parses the exact decimal string of a BigNumber into
exactly this value (ECMAScript ToNumber rounds to nearest, ties to
even). -/
def nearestDouble (q : ℚ) : ℚ :=
  if q = 0 then 0
  else
    (if q < 0 then (-1 : ℚ) else 1) *
      (roundHalfEven (|q| * 2 ^ (52 - log2Rat q)) : ℚ) * 2 ^ (log2Rat q - 52)

/-- Fuelled downward scan for the decimal exponent. -/
def exp10Down (fuel : ℕ) (a : ℚ) (e : ℤ) : ℤ :=
  match fuel with
  | 0 => e
  | fuel + 1 => if 10 ≤ a then exp10Down fuel (a / 10) (e + 1) else e

/-- Fuelled upward scan for the decimal exponent. -/
def exp10Up (fuel : ℕ) (a : ℚ) (e : ℤ) : ℤ :=
  match fuel with
  | 0 => e
  | fuel + 1 => if a < 1 then exp10Up fuel (a * 10) (e - 1) else e

/-- The decimal exponent of a nonzero rational: the e with 10 to the e
at most the absolute value, which stays below 10 to the e plus one. -/
def log10Rat (q : ℚ) : ℤ :=
  if 1 ≤ |q| then exp10Down 1100 |q| 0 else exp10Up 1100 |q| 0

/-- The decimal with k significant digits nearest to v (ties to the even
digit), a candidate output of the ECMAScript Number-to-String
conversion. -/
def candidateWithDigits (v : ℚ) (k : ℕ) : ℚ :=
  (roundHalfEven (v / 10 ^ (log10Rat v - (k : ℤ) + 1)) : ℚ) *
    10 ^ (log10Rat v - (k : ℤ) + 1)

/-- The decimal value a JavaScript number v prints as, and that
new BigNumber(v) therefore receives (bignumber.js converts a number
operand through String): the decimal with the fewest significant digits
that parses back to exactly v, taking at each length the candidate
nearest to v, per ECMAScript Number-to-String semantics.  The fallback
branch, for the case that no candidate of up to 17 digits recovers v,
is never reached by binary64 values. -/
def decimalOfNumber (v : ℚ) : ℚ :=
  if v = 0 then 0
  else
    match (List.range 17).findSome? (fun i =>
      if nearestDouble (candidateWithDigits v (i + 1)) = v then
        some (candidateWithDigits v (i + 1))
      else none) with
    | some c => c
    | none => v

/-- The decimal value BigNumber receives for the Math.pow(10, tokenDecimal)
operand of calcTransactionAmount (part_001 line 198): the binary64 value
of the native power (correctly rounded, hence exact whenever 10 to the d
is representable, in particular for every d up to 22), reprinted through
the Number-to-String conversion inside the BigNumber constructor. -/
def pow10AsBN (d : ℕ) : ℚ := decimalOfNumber (nearestDouble (10 ^ d))

/-- The number totalSupply computes from the raw base-unit amount
(part_001 lines 131-133): BigNumber division by 10 to the tokenDecimals
power, which bignumber.js rounds to DECIMAL_PLACES = 20 decimal places
under the default ROUND_HALF_UP mode, printed exactly by toString(10),
and then forced into a native binary64 number by the unary +. -/
def unscale (n : ℚ) (d : ℕ) : ℚ := nearestDouble (roundDp 20 (n / 10 ^ d))

/-- Embedding of calcTransactionAmount (part_001 lines 197-199) applied
to a number amount: new BigNumber(amount) receives the decimal the number
prints as, .times multiplies it with arbitrary precision by the decimal
received for Math.pow(10, tokenDecimal), and toString(10) returns the
exact decimal product. -/
def calcTransactionAmount (amount : ℚ) (d : ℕ) : ℚ :=
  decimalOfNumber amount * pow10AsBN d

/-- An argument handed to the ABI codec: an address string or a numeric
amount. -/
inductive EncArg where
  | addr (a : String)
  | num (q : ℚ)
deriving DecidableEq

/-- The transaction request object handed to the wallet: from, to, data
and the optional value field (approveToken builds requests without a value
field; createTransaction always supplies one). -/
structure TxRequest where
  fromAddr : String
  toAddr : String
  data : String
  value : Option String
deriving DecidableEq

/-- One provider interaction: a contract read call, or an
eth_sendTransaction submission carrying the built request. -/
inductive RpcCall where
  | read (method : String)
  | send (req : TxRequest)
deriving DecidableEq

/-- Recognises a submission entry of a trace. -/
def isSend : RpcCall → Bool
  | RpcCall.send _ => true
  | RpcCall.read _ => false

/-- The environment a service call runs against: the results the provider
and the ABI codec would return.  supplyRead is the raw base-unit result of
the totalSupply read, allowanceRead the result of the allowance read,
encode the behaviour of web3.eth.abi.encodeFunctionCall, and sendResult
the wallet response to eth_sendTransaction. -/
structure Env where
  supplyRead : Except JsError ℚ
  allowanceRead : Except JsError ℚ
  encode : JsValue → List EncArg → Except JsError String
  sendResult : Except JsError String

/-- The JavaScript expression walletAddress || this.walletAddress: an
absent or empty-string argument falls back to the field value. -/
def jsOr (w : Option String) (fallback : String) : String :=
  match w with
  | none => fallback
  | some s => if s = "" then fallback else s

/-- Initial value of the walletAddress field (part_001 line 27); it is
only overwritten by a successful getAccount. -/
def initialWalletAddress : String := ""

/-- The outcome value of a service call that returns a promise: the
fulfillment value is either the wallet response to a submission, or, for
approveToken, the caught error object its catch clause returns. -/
inductive TxValue where
  | txHash (h : String)
  | errVal (e : JsError)
deriving DecidableEq

/-- How a service call ends for its caller: the promise fulfills with a
value, or the failure reaches the caller (a promise rejection or a
synchronous throw). -/
inductive PResult where
  | fulfilled (v : TxValue)
  | rejected (e : JsError)
deriving DecidableEq

/-- Embedding of totalSupply (part_001 lines 123-134): performs the
totalSupply read and returns the number obtained from the raw result by
the division, 20-decimal-place rounding and binary64 conversion that
unscale models.  The second component is the trace of reads issued. -/
def totalSupply (env : Env) (tokenDecimals : ℕ) :
    Except JsError ℚ × List RpcCall :=
  match env.supplyRead with
  | Except.error e => (Except.error e, [RpcCall.read "totalSupply"])
  | Except.ok raw => (Except.ok (unscale raw tokenDecimals), [RpcCall.read "totalSupply"])

/-- Embedding of sendTransaction (part_001 lines 221-226): one
eth_sendTransaction request carrying the given transaction config; the
wallet either fulfills with a response or rejects. -/
def sendTransaction (sendResult : Except JsError String)
    (transactionConfig : TxRequest) : PResult × List RpcCall :=
  match sendResult with
  | Except.ok h => (PResult.fulfilled (TxValue.txHash h), [RpcCall.send transactionConfig])
  | Except.error e => (PResult.rejected e, [RpcCall.send transactionConfig])

/-- Embedding of checkTokenAllowance (part_001 lines 136-165): read the
allowance, read and unscale the total supply, map a result equal to the
string 0 (or falsy) to null, and test
new BigNumber(result).minus(totalSupply).isPositive().  In bignumber.js
the zero produced by subtracting a number from itself carries a positive
sign under the default rounding mode, and isPositive tests the sign, so
the test holds exactly when the difference is nonnegative.  The whole body
sits in a try block whose catch returns false, so either read failing
yields false. -/
def checkTokenAllowance (env : Env) (tokenDecimals : ℕ) : Bool × List RpcCall :=
  match env.allowanceRead with
  | Except.error _ => (false, [RpcCall.read "allowance"])
  | Except.ok a =>
    match (totalSupply env tokenDecimals).1 with
    | Except.error _ => (false, [RpcCall.read "allowance", RpcCall.read "totalSupply"])
    | Except.ok s =>
      if a = 0 then (false, [RpcCall.read "allowance", RpcCall.read "totalSupply"])
      else (decide (0 ≤ a - s), [RpcCall.read "allowance", RpcCall.read "totalSupply"])

/-- Embedding of approveToken (part_001 lines 167-195).  The body sits in
a try block whose catch clause returns the caught error, so a failing
supply read or a throwing encode step makes the returned promise fulfill
with the error value.  The final sendTransaction promise is returned
without await, so a rejection of the submission itself is not caught and
rejects the promise approveToken returned. -/
def approveToken (env : Env) (abi : List MethodDescriptor) (tokenAddress : String)
    (tokenDecimals : ℕ) (walletAddress : Option String) (selfWalletAddress : String) :
    PResult × List RpcCall :=
  match (totalSupply env tokenDecimals).1 with
  | Except.error e => (PResult.fulfilled (TxValue.errVal e), [RpcCall.read "totalSupply"])
  | Except.ok supply =>
    match getMethodInterface abi "approve" with
    | Except.error e => (PResult.fulfilled (TxValue.errVal e), [RpcCall.read "totalSupply"])
    | Except.ok approveMethod =>
      match env.encode approveMethod
          [EncArg.addr tokenAddress,
            EncArg.num (calcTransactionAmount supply tokenDecimals)] with
      | Except.error e => (PResult.fulfilled (TxValue.errVal e), [RpcCall.read "totalSupply"])
      | Except.ok approveSignature =>
        ((sendTransaction env.sendResult
            ⟨jsOr walletAddress selfWalletAddress, tokenAddress, approveSignature, none⟩).1,
          RpcCall.read "totalSupply" ::
            (sendTransaction env.sendResult
              ⟨jsOr walletAddress selfWalletAddress, tokenAddress, approveSignature, none⟩).2)

/-- Embedding of createTransaction (part_001 lines 201-219): no try
clause, so a throwing encode step propagates to the caller, modelled as a
rejected outcome; on success it submits the request, with the value field
defaulted to the empty string when absent or falsy. -/
def createTransaction (env : Env) (abi : List MethodDescriptor) (method : String)
    (data : List EncArg) (tokenAddress : String) (walletAddress : Option String)
    (value : Option String) (selfWalletAddress : String) : PResult × List RpcCall :=
  match getMethodInterface abi method with
  | Except.error e => (PResult.rejected e, [])
  | Except.ok transactionMethod =>
    match env.encode transactionMethod data with
    | Except.error e => (PResult.rejected e, [])
    | Except.ok signature =>
      sendTransaction env.sendResult
        ⟨jsOr walletAddress selfWalletAddress, tokenAddress, signature,
          some (value.getD "")⟩

/-- The fixed network table (part_001 lines 10-15), as the JavaScript
object lookup networks[name]: an unknown key yields undefined. -/
def networks (name : String) : Option String :=
  if name = "mainnet" then some "0x1"
  else if name = "ropsten" then some "0x3"
  else if name = "kovan" then some "0x2a"
  else if name = "rinkeby" then some "0x4"
  else none

/-- The wallet-side state getAccount runs against: whether a wallet object
is injected at all, the chain id cached on the wallet object (none for
undefined or null), the outcome of an eth_chainId request, and the outcome
of an eth_requestAccounts request. -/
structure WalletState where
  injected : Bool
  chainId : Option String
  chainProbe : Except Unit String
  accounts : Except Unit (List String)

/-- How getAccount ends: the promise resolves with an address and network,
rejects with an errorMsg, or the method throws a synchronous TypeError
before the promise is even created. -/
inductive ConnectOutcome where
  | resolved (address network : String)
  | rejected (errorMsg : String)
  | typeError
deriving DecidableEq

/-- Embedding of getAccount (part_001 lines 51-108).  The read of
this.wallet.chainId on line 56 happens before the returned promise is
created, so with no injected wallet the method throws a TypeError instead
of rejecting, and the not-injected guard inside the promise executor is
never reached.  A falsy cached chain id (undefined, null, or the empty
string) triggers an eth_chainId probe, whose failure rejects with Not
authorized; a truthy cached id is compared directly against the expected
chain.  A matching chain requests accounts: success resolves with the
first account and the chain id, denial rejects with Not authorized.  A
mismatch rejects with the wrong-network message (the probe branch message
lacks the trailing period that the cached branch message has).  The second
component lists the wallet RPC methods requested, in order. -/
def getAccount (isProduction : Bool) (testnet : String) (w : WalletState) :
    ConnectOutcome × List String :=
  if w.injected = false then (ConnectOutcome.typeError, [])
  else
    let usedNetwork := if isProduction then "mainnet" else testnet
    let usedChain := if isProduction then networks "mainnet" else networks testnet
    let probe : ConnectOutcome × List String :=
      match w.chainProbe with
      | Except.error _ => (ConnectOutcome.rejected "Not authorized", ["eth_chainId"])
      | Except.ok resChain =>
        if some resChain = usedChain then
          match w.accounts with
          | Except.ok account =>
              (ConnectOutcome.resolved (account.headD "") resChain,
                ["eth_chainId", "eth_requestAccounts"])
          | Except.error _ =>
              (ConnectOutcome.rejected "Not authorized",
                ["eth_chainId", "eth_requestAccounts"])
        else
          (ConnectOutcome.rejected
            ("Please choose " ++ usedNetwork ++ " network in metamask wallet"),
            ["eth_chainId"])
    match w.chainId with
    | none => probe
    | some currentChain =>
      if currentChain = "" then probe
      else if some currentChain = usedChain then
        match w.accounts with
        | Except.ok account =>
            (ConnectOutcome.resolved (account.headD "") currentChain,
              ["eth_requestAccounts"])
        | Except.error _ =>
            (ConnectOutcome.rejected "Not authorized", ["eth_requestAccounts"])
      else
        (ConnectOutcome.rejected
          ("Please choose " ++ usedNetwork ++ " network in metamask wallet."), [])

/-- The chain id the getAccount comparison actually uses: the cached
wallet chain id when truthy, otherwise the successful response to the
eth_chainId probe, and none when neither is available. -/
def effectiveChainId (w : WalletState) : Option String :=
  match w.chainId with
  | some c => if c = "" then w.chainProbe.toOption else some c
  | none => w.chainProbe.toOption

/-- Recognises the two wrong-network rejection messages getAccount can
produce for an expected network: the probe-branch message and the
cached-branch message with its trailing period. -/
def isWrongNetwork (net : String) : ConnectOutcome → Bool
  | ConnectOutcome.rejected msg =>
      msg == "Please choose " ++ net ++ " network in metamask wallet" ||
      msg == "Please choose " ++ net ++ " network in metamask wallet."
  | _ => false

/-- The page-level state the chainChanged handler touches: the chain id in
page-local storage (none when never written) and a counter of the full
page reloads performed, standing for session invalidations. -/
structure PageState where
  storedChainId : Option String
  reloads : ℕ
deriving DecidableEq

/-- JavaScript String(x) applied to the result of localStorage.getItem:
null prints as the four letter word null, a stored string prints as
itself. -/
def stringOfStored : Option String → String
  | none => "null"
  | some s => s

/-- Embedding of the chainChanged handler installed by the constructor
(part_001 lines 35-41): read the persisted chain id and, when its string
form differs from the incoming value, persist the new value and reload the
page; otherwise do nothing. -/
def chainChangedHandler (s : PageState) (newChain : String) : PageState :=
  if stringOfStored s.storedChainId ≠ newChain then
    ⟨some newChain, s.reloads + 1⟩
  else s

/-- An environment in which every provider interaction succeeds: the
supply read returns 5 base units, the allowance read returns 7, encoding
yields a fixed signature and submission a fixed hash. -/
def envOk : Env :=
  ⟨Except.ok 5, Except.ok 7, fun _ _ => Except.ok "0xsig", Except.ok "0xhash"⟩

/-- An environment whose ABI codec always fails with an encoding error
while the reads and the submission succeed. -/
def envEnc : Env :=
  ⟨Except.ok 5, Except.ok 7, fun _ _ => Except.error JsError.encodingError,
    Except.ok "0xhash"⟩

/-- An environment whose allowance read returns zero. -/
def envZero : Env :=
  ⟨Except.ok 5, Except.ok 0, fun _ _ => Except.ok "0xsig", Except.ok "0xhash"⟩

/-- A wallet on chain 0x5 with a cached chain id, a consistent probe
response, and an authorized account. -/
def walletWrong : WalletState :=
  ⟨true, some "0x5", Except.ok "0x5", Except.ok ["0xabc"]⟩

/-- A one-entry ABI holding only an approve descriptor. -/
def abiApprove : List MethodDescriptor := [⟨"approve", "approve-descriptor"⟩]

set_option maxRecDepth 40000 in
/-- C1 counterexample: the human amount 10 to the minus 21 has at most 21
fractional digits (first conjunct), yet scaling it by 21 decimals and
unscaling the result returns the number 0 (second conjunct) and not the
number for the original amount (third conjunct): the scaled base-unit
amount is exactly 1, and dividing 1 by 10 to the 21 needs 21 decimal
places, which bignumber.js rounds to its 20-decimal-place limit, giving
0.  So the round trip is not exact for every amount within d fractional
digits. -/
theorem scale_unscale_counterexample :
    ((1 : ℚ) / 10 ^ 21) * 10 ^ 21 = 1 ∧
    unscale (calcTransactionAmount (nearestDouble (1 / 10 ^ 21)) 21) 21 = 0 ∧
    nearestDouble ((1 : ℚ) / 10 ^ 21) ≠ 0 := by decide

/-- C1 amended: the unscale-scale round trip returns exactly n whenever
the human value of n fits in 20 decimal places (so the dividedBy rounding
is the identity), survives the conversion into a binary64 number and back
to its printed decimal, and the native power 10 to the d converts back to
exactly 10 to the d; symmetrically, scale then unscale returns the number
for the human amount h whenever h fits in 20 decimal places and survives
the number round trip.  Outside this domain the 20-decimal-place division
rounding and the binary64 conversions can lose precision. -/
theorem scale_unscale_round_trip (d : ℕ) (n h : ℚ)
    (hn20 : roundDp 20 (n / 10 ^ d) = n / 10 ^ d)
    (hnrt : decimalOfNumber (nearestDouble (n / 10 ^ d)) = n / 10 ^ d)
    (hh20 : roundDp 20 h = h)
    (hhrt : decimalOfNumber (nearestDouble h) = h)
    (hpw : pow10AsBN d = 10 ^ d) :
    calcTransactionAmount (unscale n d) d = n ∧
    unscale (calcTransactionAmount (nearestDouble h) d) d = nearestDouble h := by
  have hpow : (10 : ℚ) ^ d ≠ 0 := by positivity
  constructor
  · simp only [unscale, calcTransactionAmount]
    rw [hn20, hnrt, hpw]
    exact div_mul_cancel₀ n hpow
  · simp only [unscale, calcTransactionAmount]
    rw [hhrt, hpw, mul_div_cancel_right₀ h hpow, hh20]

/-- Witness for C1 amended at the scenario of the specification: 18
decimals, a total supply of 10 to the 21 base units (human value 1000),
and the human amount 1000; the precision hypotheses all hold there and
the round trip is exact in both directions. -/
theorem scale_unscale_round_trip_witness :
    roundDp 20 ((10 ^ 21 : ℚ) / 10 ^ 18) = (10 ^ 21 : ℚ) / 10 ^ 18 ∧
    calcTransactionAmount (unscale (10 ^ 21) 18) 18 = ((10 : ℚ) ^ 21) ∧
    unscale (calcTransactionAmount (nearestDouble 1000) 18) 18 =
      nearestDouble 1000 := by
  have h := scale_unscale_round_trip 18 (10 ^ 21) 1000 (by decide) (by decide)
    (by decide) (by decide) (by decide)
  exact ⟨by decide, h.1, h.2⟩

/-- C3 counterexample: on an empty ABI the lookup completes normally with
the undefined value; it does not fail with a method-not-found error. -/
theorem getMethodInterface_undefined_counterexample :
    getMethodInterface [] "approve" = Except.ok JsValue.undefined ∧
    getMethodInterface [] "approve" ≠ Except.error JsError.methodNotFound := by
  constructor
  · rfl
  · simp [getMethodInterface, methodLookup]

/-- C3 amended: getMethodInterface returns the first descriptor whose name
equals the query when at least one matches, and when no entry matches,
including for an empty ABI, it completes normally returning the undefined
value rather than failing with an error. -/
theorem getMethodInterface_first_or_undefined (abi : List MethodDescriptor)
    (n : String) :
    ((∀ m ∈ abi, m.name ≠ n) →
      getMethodInterface abi n = Except.ok JsValue.undefined) ∧
    (∀ l₁ m l₂, abi = l₁ ++ m :: l₂ → m.name = n → (∀ x ∈ l₁, x.name ≠ n) →
      getMethodInterface abi n = Except.ok (JsValue.method m)) := by
  constructor
  · intro hnone
    have hfilter : abi.filter (fun m => m.name == n) = [] := by
      rw [List.filter_eq_nil_iff]
      intro m hm
      simpa using hnone m hm
    simp [getMethodInterface, methodLookup, hfilter]
  · intro l₁ m l₂ habi hm hl₁
    subst habi
    have hfilter₁ : l₁.filter (fun m => m.name == n) = [] := by
      rw [List.filter_eq_nil_iff]
      intro x hx
      simpa using hl₁ x hx
    simp [getMethodInterface, methodLookup, List.filter_append, hfilter₁,
      List.filter_cons, hm]

/-- Witness for C3 amended: an ABI with two descriptors sharing the name
approve resolves to the first of them. -/
theorem getMethodInterface_first_or_undefined_witness :
    getMethodInterface [⟨"approve", "first"⟩, ⟨"approve", "second"⟩] "approve" =
      Except.ok (JsValue.method ⟨"approve", "first"⟩) :=
  (getMethodInterface_first_or_undefined
      [⟨"approve", "first"⟩, ⟨"approve", "second"⟩] "approve").2
    [] ⟨"approve", "first"⟩ [⟨"approve", "second"⟩] rfl rfl (by simp)

/-- C4: with no injected wallet, getAccount hits the this.wallet.chainId
read before the promise is created and throws a TypeError: it neither
rejects with the wallet-not-injected message nor issues any RPC request.
The rejection the claim describes is the intent of the unreachable guard
inside the promise executor, not the behaviour of the code. -/
theorem getAccount_not_injected :
    getAccount true "ropsten" ⟨false, none, Except.error (), Except.error ()⟩ =
      (ConnectOutcome.typeError, []) := rfl

/-- Helper: for an injected wallet whose effective chain id is c, a
mismatch with the expected chain yields the wrong-network rejection and no
account request, and a match proceeds to request accounts. -/
theorem getAccount_effective (p : Bool) (t : String) (w : WalletState) (c : String)
    (hinj : w.injected = true) (heff : effectiveChainId w = some c) :
    (some c ≠ (if p then networks "mainnet" else networks t) →
      isWrongNetwork (if p then "mainnet" else t) (getAccount p t w).1 = true ∧
      "eth_requestAccounts" ∉ (getAccount p t w).2) ∧
    (some c = (if p then networks "mainnet" else networks t) →
      "eth_requestAccounts" ∈ (getAccount p t w).2) := by
  rcases w with ⟨inj, cid, probe, acc⟩
  obtain rfl : inj = true := hinj
  constructor
  · intro hne
    rcases cid with _ | s
    · rcases probe with u | r
      · simp [effectiveChainId, Except.toOption] at heff
      · simp [effectiveChainId, Except.toOption] at heff
        subst heff
        simp [getAccount, hne, isWrongNetwork]
    · by_cases hs : s = ""
      · subst hs
        rcases probe with u | r
        · simp [effectiveChainId, Except.toOption] at heff
        · simp [effectiveChainId, Except.toOption] at heff
          subst heff
          simp [getAccount, hne, isWrongNetwork]
      · simp [effectiveChainId, hs] at heff
        subst heff
        simp [getAccount, hs, hne, isWrongNetwork]
  · intro hmatch
    rcases cid with _ | s
    · rcases probe with u | r
      · simp [effectiveChainId, Except.toOption] at heff
      · simp [effectiveChainId, Except.toOption] at heff
        subst heff
        rw [getAccount]
        rcases acc with u | accounts <;> simp [← hmatch]
    · by_cases hs : s = ""
      · subst hs
        rcases probe with u | r
        · simp [effectiveChainId, Except.toOption] at heff
        · simp [effectiveChainId, Except.toOption] at heff
          subst heff
          rw [getAccount]
          rcases acc with u | accounts <;> simp [← hmatch]
      · simp [effectiveChainId, hs] at heff
        subst heff
        rw [getAccount]
        rcases acc with u | accounts <;> simp [← hmatch, hs]

/-- C5: for an injected wallet whose reported (effective) chain id is c, a
production session rejects with the wrong-network message whenever c is
not 0x1, and a session created with isProduction false and testnet ropsten
proceeds to request accounts exactly when c is 0x3, rejecting with the
wrong-network message and issuing no account request for every other c. -/
theorem getAccount_network_policy (w : WalletState) (c t : String)
    (hinj : w.injected = true) (heff : effectiveChainId w = some c) :
    (c ≠ "0x1" → isWrongNetwork "mainnet" (getAccount true t w).1 = true) ∧
    (c = "0x3" → "eth_requestAccounts" ∈ (getAccount false "ropsten" w).2) ∧
    (c ≠ "0x3" →
      isWrongNetwork "ropsten" (getAccount false "ropsten" w).1 = true ∧
      "eth_requestAccounts" ∉ (getAccount false "ropsten" w).2) := by
  refine ⟨fun hc => ?_, fun hc => ?_, fun hc => ?_⟩
  · have h := (getAccount_effective true t w c hinj heff).1 (by simp [networks, hc])
    simpa using h.1
  · exact (getAccount_effective false "ropsten" w c hinj heff).2
      (by simp [networks, hc])
  · have h := (getAccount_effective false "ropsten" w c hinj heff).1
      (by simp [networks, hc])
    simpa using h

/-- Witness for C5: a wallet cached on chain 0x5 is rejected with the
mainnet wrong-network message in production and with the ropsten
wrong-network message otherwise. -/
theorem getAccount_network_policy_witness :
    walletWrong.injected = true ∧ effectiveChainId walletWrong = some "0x5" ∧
    isWrongNetwork "mainnet" (getAccount true "ropsten" walletWrong).1 = true ∧
    isWrongNetwork "ropsten" (getAccount false "ropsten" walletWrong).1 = true := by
  have h := getAccount_network_policy walletWrong "0x5" "ropsten" rfl rfl
  exact ⟨rfl, rfl, h.1 (by decide), (h.2.2 (by decide)).1⟩

/-- C6 counterexample: a concrete createTransaction run submits the built
request itself; its trace is exactly one eth_sendTransaction call, against
the claim that the builders never invoke that RPC. -/
theorem createTransaction_submits_counterexample :
    (createTransaction envOk abiApprove "approve" [] "0xT" none none "").2 =
      [RpcCall.send ⟨"", "0xT", "0xsig", some ""⟩] := rfl

/-- C6 amended: checkTokenAllowance issues only read calls, but
approveToken and createTransaction do not stop at building the request:
whenever the supply read (for approveToken) and the encode step succeed,
each one submits the built request itself through eth_sendTransaction. -/
theorem builders_read_and_submit (env : Env) (d : ℕ) (abi : List MethodDescriptor)
    (ta m self : String) (wa : Option String) (data : List EncArg)
    (value : Option String)
    (henc : ∀ v args, ∃ s, env.encode v args = Except.ok s)
    (hsup : ∃ q, env.supplyRead = Except.ok q) :
    (∀ call ∈ (checkTokenAllowance env d).2, isSend call = false) ∧
    (∃ r, RpcCall.send r ∈ (approveToken env abi ta d wa self).2) ∧
    (∃ r, RpcCall.send r ∈ (createTransaction env abi m data ta wa value self).2) := by
  obtain ⟨q, hq⟩ := hsup
  refine ⟨?_, ?_, ?_⟩
  · intro call hcall
    rcases ha : env.allowanceRead with e | a
    · simp [checkTokenAllowance, ha] at hcall
      subst hcall
      rfl
    · by_cases hz : a = 0 <;>
        · simp [checkTokenAllowance, totalSupply, ha, hq, hz] at hcall
          rcases hcall with h | h <;> (subst h; rfl)
  · obtain ⟨sig, hsig⟩ := henc (methodLookup abi "approve")
      [EncArg.addr ta, EncArg.num (calcTransactionAmount (unscale q d) d)]
    refine ⟨⟨jsOr wa self, ta, sig, none⟩, ?_⟩
    rcases hsend : env.sendResult with e | h <;>
      simp [approveToken, totalSupply, getMethodInterface, hq, hsig,
        sendTransaction, hsend]
  · obtain ⟨sig, hsig⟩ := henc (methodLookup abi m) data
    refine ⟨⟨jsOr wa self, ta, sig, some (value.getD "")⟩, ?_⟩
    rcases hsend : env.sendResult with e | h <;>
      simp [createTransaction, getMethodInterface, hsig, sendTransaction, hsend]

/-- Witness for C6 amended: with every provider interaction succeeding,
the allowance check issues no submission while both transaction operations
do submit. -/
theorem builders_read_and_submit_witness :
    (∀ call ∈ (checkTokenAllowance envOk 18).2, isSend call = false) ∧
    (∃ r, RpcCall.send r ∈ (approveToken envOk abiApprove "0xT" 18 none "").2) ∧
    (∃ r, RpcCall.send r ∈
      (createTransaction envOk abiApprove "approve" [] "0xT" none none "").2) :=
  builders_read_and_submit envOk 18 abiApprove "0xT" "approve" "" none [] none
    (fun _ _ => ⟨"0xsig", rfl⟩) ⟨5, rfl⟩

/-- C7 counterexample: when the encode step fails, approveToken resolves
successfully with the error value, against the claim that the failure
reaches the caller as a rejection. -/
theorem approveToken_fulfills_with_error_counterexample :
    approveToken envEnc abiApprove "0xT" 18 none "" =
      (PResult.fulfilled (TxValue.errVal JsError.encodingError),
        [RpcCall.read "totalSupply"]) := rfl

/-- C7 amended: when the encode step fails (as it does when the method
lookup produced undefined or the arguments do not fit the descriptor),
createTransaction propagates the failure to its caller, but approveToken
catches it and resolves successfully with the error value instead of
rejecting. -/
theorem construction_failure_propagation (env : Env) (abi : List MethodDescriptor)
    (ta m self : String) (d : ℕ) (wa : Option String) (data : List EncArg)
    (value : Option String) (raw : ℚ) (e : JsError)
    (hsup : env.supplyRead = Except.ok raw)
    (henc : ∀ v args, env.encode v args = Except.error e) :
    approveToken env abi ta d wa self =
      (PResult.fulfilled (TxValue.errVal e), [RpcCall.read "totalSupply"]) ∧
    createTransaction env abi m data ta wa value self =
      (PResult.rejected e, []) := by
  constructor
  · simp [approveToken, totalSupply, getMethodInterface, hsup, henc]
  · simp [createTransaction, getMethodInterface, henc]

/-- Witness for C7 amended, at an environment whose codec always fails
with an encoding error. -/
theorem construction_failure_propagation_witness :
    approveToken envEnc abiApprove "0xU" 18 none "" =
      (PResult.fulfilled (TxValue.errVal JsError.encodingError),
        [RpcCall.read "totalSupply"]) ∧
    createTransaction envEnc abiApprove "approve" [] "0xU" none none "" =
      (PResult.rejected JsError.encodingError, []) :=
  construction_failure_propagation envEnc abiApprove "0xU" "approve" "" 18 none []
    none 5 JsError.encodingError rfl (fun _ _ => rfl)

/-- C8: checkTokenAllowance returns false, rather than throwing or
rejecting (in this embedding it is a total boolean-valued operation,
mirroring the try block around its whole body), whenever either read call
fails or the returned allowance is zero. -/
theorem checkTokenAllowance_fail_closed (env : Env) (d : ℕ)
    (h : (∃ e, env.allowanceRead = Except.error e) ∨
         (∃ e, env.supplyRead = Except.error e) ∨
         env.allowanceRead = Except.ok 0) :
    (checkTokenAllowance env d).1 = false := by
  rcases h with ⟨e, he⟩ | ⟨e, he⟩ | he
  · simp [checkTokenAllowance, he]
  · rcases ha : env.allowanceRead with e2 | a <;>
      simp [checkTokenAllowance, totalSupply, ha, he]
  · rcases hs : env.supplyRead with e2 | raw <;>
      simp [checkTokenAllowance, totalSupply, he, hs]

/-- Witness for C8: a zero allowance yields false. -/
theorem checkTokenAllowance_fail_closed_witness :
    (checkTokenAllowance envZero 18).1 = false :=
  checkTokenAllowance_fail_closed envZero 18 (Or.inr (Or.inr rfl))

/-- C9: when the incoming chainChanged value differs from the persisted
chain id, the handler persists the new value and performs exactly one
invalidation (page reload); delivering the same value a second time
performs no write and no further invalidation, because the comparison
against the now-updated persisted id finds no difference. -/
theorem chainChanged_idempotent (s : PageState) (v c : String)
    (hstored : s.storedChainId = some v) (hne : v ≠ c) :
    chainChangedHandler s c = ⟨some c, s.reloads + 1⟩ ∧
    chainChangedHandler (chainChangedHandler s c) c = chainChangedHandler s c := by
  have h1 : chainChangedHandler s c = ⟨some c, s.reloads + 1⟩ := by
    simp [chainChangedHandler, stringOfStored, hstored, hne]
  refine ⟨h1, ?_⟩
  rw [h1]
  simp [chainChangedHandler, stringOfStored]

/-- Witness for C9: a page with 0x1 persisted sees the chainChanged value
0x3 once and is invalidated exactly once; the second delivery changes
nothing. -/
theorem chainChanged_idempotent_witness :
    chainChangedHandler ⟨some "0x1", 0⟩ "0x3" = ⟨some "0x3", 1⟩ ∧
    chainChangedHandler (chainChangedHandler ⟨some "0x1", 0⟩ "0x3") "0x3" =
      chainChangedHandler ⟨some "0x1", 0⟩ "0x3" :=
  chainChanged_idempotent ⟨some "0x1", 0⟩ "0x1" "0x3" rfl (by decide)

/-- Helper: a send entry of a sendTransaction trace carries exactly the
submitted config. -/
theorem send_mem_sendTransaction (sr : Except JsError String) (cfg r : TxRequest)
    (h : RpcCall.send r ∈ (sendTransaction sr cfg).2) : r = cfg := by
  rcases sr with e | s <;> simpa [sendTransaction] using h

/-- C10: called with no explicit walletAddress argument while the field
still holds its initial empty-string value (before any successful
getAccount), approveToken and createTransaction submit requests whose from
field is the empty string, because the fallback selects the empty field
value. -/
theorem default_from_is_empty (env : Env) (abi : List MethodDescriptor)
    (ta m : String) (d : ℕ) (data : List EncArg) (value : Option String)
    (r : TxRequest)
    (h : RpcCall.send r ∈ (approveToken env abi ta d none initialWalletAddress).2 ∨
         RpcCall.send r ∈
           (createTransaction env abi m data ta none value initialWalletAddress).2) :
    r.fromAddr = "" := by
  rcases h with h | h
  · rcases hs : env.supplyRead with e | raw
    · simp [approveToken, totalSupply, hs] at h
    · rcases he : env.encode (methodLookup abi "approve")
          [EncArg.addr ta, EncArg.num (calcTransactionAmount (unscale raw d) d)]
          with e | sig
      · simp [approveToken, totalSupply, getMethodInterface, hs, he] at h
      · simp only [approveToken, totalSupply, getMethodInterface, hs, he,
          List.mem_cons] at h
        rcases h with h | h
        · exact absurd h (by simp)
        · rw [send_mem_sendTransaction env.sendResult _ r h]
          rfl
  · rcases he : env.encode (methodLookup abi m) data with e | sig
    · simp [createTransaction, getMethodInterface, he] at h
    · simp only [createTransaction, getMethodInterface, he] at h
      rw [send_mem_sendTransaction env.sendResult _ r h]
      rfl

/-- Witness for C10: with every interaction succeeding, the request
approveToken submits sits in its trace and carries the empty from
field. -/
theorem default_from_is_empty_witness :
    RpcCall.send ⟨"", "0xT", "0xsig", none⟩ ∈
      (approveToken envOk abiApprove "0xT" 18 none initialWalletAddress).2 ∧
    (⟨"", "0xT", "0xsig", none⟩ : TxRequest).fromAddr = "" :=
  ⟨by decide,
    default_from_is_empty envOk abiApprove "0xT" "approve" 18 [] none
      ⟨"", "0xT", "0xsig", none⟩ (Or.inl (by decide))⟩

end Web3Metamask
